import Mathlib

/-!
Shallow embedding of the screeps-game-api fragment found in
`src/screeps-game-api/src/constants.rs` and `src/src/objects/impls/room.rs`.

Modelling conventions: machine integers `i32` are `Int` and `u32`/`u8` are
`Nat` (the embedded code performs no arithmetic on them, only table lookups
and storage, so no overflow is reachable); `JsString` is `String`; `f64` is
`Float` (values are only stored and passed through, never computed with);
the opaque host types (`RoomName`, `CostMatrix`, `JsValue`, converted item
types) are type parameters; Rust `Result` is `Except` and `Option` is
`Option`; a `panic!`/`expect` inside an embedded closure is modelled as the
`none` outcome of an `Option`-returning function.  Calls into the JavaScript
host are modelled by passing the host's answer (or a `Host` oracle record)
as an explicit argument.
-/

deriving instance DecidableEq for Except

/-- Return codes of the host API, from the `ReturnCode` enum in
`constants.rs`.  Note that no variant has discriminant `-13`: the declared
discriminants are `0`, `-1` … `-12`, `-14`, `-15` and `42`. -/
inductive ReturnCode where
  | Ok
  | NotOwner
  | NoPath
  | NameExists
  | Busy
  | NotFound
  | NotEnough
  | InvalidTarget
  | Full
  | NotInRange
  | InvalidArgs
  | Tired
  | NoBodypart
  | RclNotEnough
  | GclNotEnough
  | Other
  deriving DecidableEq, Fintype, Repr

/-- Discriminant of each `ReturnCode` variant (the `#[repr(i32)]` values). -/
def ReturnCode.toI32 : ReturnCode → Int
  | .Ok => 0
  | .NotOwner => -1
  | .NoPath => -2
  | .NameExists => -3
  | .Busy => -4
  | .NotFound => -5
  | .NotEnough => -6
  | .InvalidTarget => -7
  | .Full => -8
  | .NotInRange => -9
  | .InvalidArgs => -10
  | .Tired => -11
  | .NoBodypart => -12
  | .RclNotEnough => -14
  | .GclNotEnough => -15
  | .Other => 42

/-- Embedding of `ReturnCode::as_result`: `Ok` becomes `Result::Ok(())`,
every other code becomes `Result::Err(code)`. -/
def ReturnCode.as_result : ReturnCode → Except ReturnCode Unit
  | .Ok => .ok ()
  | other => .error other

/-- Embedding of the derived `FromPrimitive::from_i32` for `ReturnCode`:
yields the variant whose discriminant is `x`, or `none` if there is none. -/
def ReturnCode.from_i32 (x : Int) : Option ReturnCode :=
  if x = 0 then some .Ok
  else if x = -1 then some .NotOwner
  else if x = -2 then some .NoPath
  else if x = -3 then some .NameExists
  else if x = -4 then some .Busy
  else if x = -5 then some .NotFound
  else if x = -6 then some .NotEnough
  else if x = -7 then some .InvalidTarget
  else if x = -8 then some .Full
  else if x = -9 then some .NotInRange
  else if x = -10 then some .InvalidArgs
  else if x = -11 then some .Tired
  else if x = -12 then some .NoBodypart
  else if x = -14 then some .RclNotEnough
  else if x = -15 then some .GclNotEnough
  else if x = 42 then some .Other
  else none

/-- Embedding of the `TryFrom<Value>` / `TryFrom<Number>` conversions for
`ReturnCode`, at the point where the host value has already been converted
to an `i32`: `Self::from_i32(x).unwrap_or_else(|| { error!(…); Other })`. -/
def ReturnCode.try_from_value (x : Int) : ReturnCode :=
  (ReturnCode.from_i32 x).getD .Other

/-- Embedding of `impl TryFrom<i32> for ReturnCode`:
`Self::from_i32(v).ok_or(v)`. -/
def ReturnCode.try_from_i32 (v : Int) : Except Int ReturnCode :=
  match ReturnCode.from_i32 v with
  | some c => .ok c
  | none => .error v

/-- The `FindObject` enum of `constants.rs`, `#[repr(i32)]` with
discriminants 101 through 118. -/
inductive FindObject where
  | Creeps
  | MyCreeps
  | HostileCreeps
  | SourcesActive
  | Sources
  | DroppedResources
  | Structures
  | MyStructures
  | HostileStructures
  | Flags
  | ConstructionSites
  | MySpawns
  | HostileSpawns
  | MyConstructionSites
  | HostileConstructionSites
  | Minerals
  | Nukes
  | Tombstones
  deriving DecidableEq, Fintype, Repr

/-- Embedding of `FindConstant::find_code` for `FindObject`:
`*self as i32`, i.e. the declared discriminant of the variant. -/
def FindObject.find_code : FindObject → Int
  | .Creeps => 101
  | .MyCreeps => 102
  | .HostileCreeps => 103
  | .SourcesActive => 104
  | .Sources => 105
  | .DroppedResources => 106
  | .Structures => 107
  | .MyStructures => 108
  | .HostileStructures => 109
  | .Flags => 110
  | .ConstructionSites => 111
  | .MySpawns => 112
  | .HostileSpawns => 113
  | .MyConstructionSites => 114
  | .HostileConstructionSites => 115
  | .Minerals => 116
  | .Nukes => 117
  | .Tombstones => 118

/-- The newtype `find::Exit(i32)` of `constants.rs`. -/
structure Exit where
  val : Int
  deriving DecidableEq, Repr

/-- Constructor `Exit::top`. -/
def Exit.top : Exit := ⟨1⟩

/-- Constructor `Exit::right`. -/
def Exit.right : Exit := ⟨3⟩

/-- Constructor `Exit::bottom`. -/
def Exit.bottom : Exit := ⟨5⟩

/-- Constructor `Exit::left`. -/
def Exit.left : Exit := ⟨7⟩

/-- Constructor `Exit::all`. -/
def Exit.all : Exit := ⟨10⟩

/-- Embedding of `impl TryFrom<i32> for Exit`: the match arm
`1 | 3 | 5 | 7 | 10 => Ok(Exit(v))`, otherwise `Err(v)`. -/
def Exit.try_from (v : Int) : Except Int Exit :=
  if v = 1 ∨ v = 3 ∨ v = 5 ∨ v = 7 ∨ v = 10 then .ok ⟨v⟩ else .error v

/-- Embedding of `FindConstant::find_code` for `Exit`: returns the wrapped
`i32`. -/
def Exit.find_code (e : Exit) : Int := e.val

/-- The `Direction` enum of `constants.rs`. -/
inductive Direction where
  | Top
  | TopRight
  | Right
  | BottomRight
  | Bottom
  | BottomLeft
  | Left
  | TopLeft
  deriving DecidableEq, Fintype, Repr

/-- Embedding of `impl Neg for Direction`: Top goes to Bottom, TopRight to
BottomLeft, and so on. -/
def Direction.neg : Direction → Direction
  | .Top => .Bottom
  | .TopRight => .BottomLeft
  | .Right => .Left
  | .BottomRight => .TopLeft
  | .Bottom => .Top
  | .BottomLeft => .TopRight
  | .Left => .Right
  | .TopLeft => .BottomRight

instance : Neg Direction := ⟨Direction.neg⟩

/-- The `Part` enum of `constants.rs` (qualified to avoid the clash with Mathlib's `Part`). -/
inductive Screeps.Part where
  | Move
  | Work
  | Carry
  | Attack
  | RangedAttack
  | Tough
  | Heal
  | Claim
  deriving DecidableEq, Fintype, Repr

/-- Embedding of `Part::cost`, a purely local constant table. -/
def Screeps.Part.cost : Screeps.Part → Nat
  | .Move => 50
  | .Work => 100
  | .Carry => 50
  | .Attack => 80
  | .RangedAttack => 150
  | .Tough => 10
  | .Heal => 250
  | .Claim => 600

def RAMPART_HITS_MAX_RCL2 : Nat := 300000

def RAMPART_HITS_MAX_RCL3 : Nat := 1000000

def RAMPART_HITS_MAX_RCL4 : Nat := 3000000

def RAMPART_HITS_MAX_RCL5 : Nat := 5000000

def RAMPART_HITS_MAX_RCL6 : Nat := 30000000

def RAMPART_HITS_MAX_RCL7 : Nat := 100000000

def RAMPART_HITS_MAX_RCL8 : Nat := 300000000

/-- Embedding of `rampart_hits_max`, a purely local match on the room
control level: `r if r < 2 => 0`, then one constant per level, with
`8 | _` mapping to the RCL8 constant. -/
def rampart_hits_max (rcl : Nat) : Nat :=
  if rcl < 2 then 0
  else if rcl = 2 then RAMPART_HITS_MAX_RCL2
  else if rcl = 3 then RAMPART_HITS_MAX_RCL3
  else if rcl = 4 then RAMPART_HITS_MAX_RCL4
  else if rcl = 5 then RAMPART_HITS_MAX_RCL5
  else if rcl = 6 then RAMPART_HITS_MAX_RCL6
  else if rcl = 7 then RAMPART_HITS_MAX_RCL7
  else RAMPART_HITS_MAX_RCL8

/-- Oracle record standing for the external JavaScript host runtime: the raw
answer of `Room.prototype.find` (the `find_internal` binding of `room.rs`),
for host objects of type `β`. -/
structure Host (β : Type) where
  find_internal : Int → List β

/-- Embedding of `Room::find`: calls the host's `find_internal` with the
find code and converts each element of the returned array. -/
def Room.find {β It : Type} (conv : β → It) (h : Host β) (code : Int) : List It :=
  (h.find_internal code).map conv

/-- Embedding of `Room::look_for_at` downstream of the host call: the host's
`lookForAt` answer (`Option<Array>`) is mapped element-wise through the
`LookConstant` conversion and defaulted to the empty vector
(`.map(|arr| arr.iter().map(convert).collect()).unwrap_or_else(Vec::new)`). -/
def Room.look_for_at {β It : Type} (conv : β → It) (host_result : Option (List β)) : List It :=
  (host_result.map (fun arr => arr.map conv)).getD []

/-- Embedding of `Room::look_for_at_xy` downstream of the host call; the
body is the same `map`/`unwrap_or_else(Vec::new)` pipeline as
`Room::look_for_at`, fed from `look_for_at_xy_internal`. -/
def Room.look_for_at_xy {β It : Type} (conv : β → It) (host_result : Option (List β)) : List It :=
  (host_result.map (fun arr => arr.map conv)).getD []

/-- An operation of the crate, seen as a function of the host oracle,
delegates to the host when its result actually depends on the oracle. -/
def DelegatesToHost {β α : Type} (op : Host β → α) : Prop :=
  ∃ h1 h2, op h1 ≠ op h2

/-- The public operation `Part::cost` lifted to a host-parameterised
operation: its body never consults the host. -/
def part_cost_op : Host Nat → Screeps.Part → Nat :=
  fun _ p => p.cost

/-- The public operation `rampart_hits_max` lifted to a host-parameterised
operation: its body never consults the host. -/
def rampart_hits_max_op : Host Nat → Nat → Nat :=
  fun _ rcl => rampart_hits_max rcl

/-- The public operation `Room::find` (with the identity item conversion) as
a host-parameterised operation. -/
def room_find_op : Host Nat → Int → List Nat :=
  fun h => Room.find (fun x => x) h

/-- The `FindOptions` builder of `room.rs`, generic over the room-name type
`RN`, the cost-matrix type `CM` and the cost-callback result type `R`
(standing for the `F: FnMut(RoomName, CostMatrix) -> R` parameter). -/
structure FindOptions (RN CM R : Type) where
  ignore_creeps : Option Bool
  ignore_destructible_structures : Option Bool
  cost_callback : RN → CM → R
  max_ops : Option Nat
  heuristic_weight : Option Float
  serialize : Option Bool
  max_rooms : Option Nat
  range : Option Nat
  plain_cost : Option Nat
  swamp_cost : Option Nat

/-- The JavaScript parameter object `JsFindOptions` of `room.rs`: a plain JS
object on which properties may or may not have been assigned, so every
property is an `Option`.  The stored cost callback is the JS-facing closure
`JsString × CostMatrix → JsValue`, whose possible room-name-parse panic is
modelled by `Option JV`. -/
structure JsFindOptions (CM JV : Type) where
  cost_callback : Option (String → CM → Option JV)
  ignore_creeps : Option Bool
  ignore_destructible_structures : Option Bool
  max_ops : Option Nat
  heuristic_weight : Option Float
  serialize : Option Bool
  max_rooms : Option Nat
  range : Option Nat
  plain_cost : Option Nat
  swamp_cost : Option Nat

/-- Embedding of `JsFindOptions::new`: `Object::new().unchecked_into()`, an
empty object with no property assigned. -/
def JsFindOptions.new {CM JV : Type} : JsFindOptions CM JV :=
  ⟨none, none, none, none, none, none, none, none, none, none⟩

/-- JS property assignment `ignoreCreeps`. -/
def JsFindOptions.set_ignore_creeps {CM JV : Type} (this : JsFindOptions CM JV)
    (ignore : Bool) : JsFindOptions CM JV :=
  { this with ignore_creeps := some ignore }

/-- JS property assignment `ignoreDestructibleStructures`. -/
def JsFindOptions.set_ignore_destructible_structures {CM JV : Type}
    (this : JsFindOptions CM JV) (ignore : Bool) : JsFindOptions CM JV :=
  { this with ignore_destructible_structures := some ignore }

/-- JS property assignment `costCallback`. -/
def JsFindOptions.set_cost_callback {CM JV : Type} (this : JsFindOptions CM JV)
    (callback : String → CM → Option JV) : JsFindOptions CM JV :=
  { this with cost_callback := some callback }

/-- JS property assignment `maxOps`. -/
def JsFindOptions.set_max_ops {CM JV : Type} (this : JsFindOptions CM JV)
    (ops : Nat) : JsFindOptions CM JV :=
  { this with max_ops := some ops }

/-- JS property assignment `heuristicWeight`. -/
def JsFindOptions.set_heuristic_weight {CM JV : Type} (this : JsFindOptions CM JV)
    (weight : Float) : JsFindOptions CM JV :=
  { this with heuristic_weight := some weight }

/-- JS property assignment `serialize`. -/
def JsFindOptions.set_serialize {CM JV : Type} (this : JsFindOptions CM JV)
    (s : Bool) : JsFindOptions CM JV :=
  { this with serialize := some s }

/-- JS property assignment `maxRooms`. -/
def JsFindOptions.set_max_rooms {CM JV : Type} (this : JsFindOptions CM JV)
    (max : Nat) : JsFindOptions CM JV :=
  { this with max_rooms := some max }

/-- JS property assignment `range`. -/
def JsFindOptions.set_range {CM JV : Type} (this : JsFindOptions CM JV)
    (r : Nat) : JsFindOptions CM JV :=
  { this with range := some r }

/-- JS property assignment `plainCost`. -/
def JsFindOptions.set_plain_cost {CM JV : Type} (this : JsFindOptions CM JV)
    (cost : Nat) : JsFindOptions CM JV :=
  { this with plain_cost := some cost }

/-- JS property assignment `swampCost`. -/
def JsFindOptions.set_swamp_cost {CM JV : Type} (this : JsFindOptions CM JV)
    (cost : Nat) : JsFindOptions CM JV :=
  { this with swamp_cost := some cost }

/-- Builder setter `FindOptions::ignore_creeps`. -/
def FindOptions.set_ignore_creeps {RN CM R : Type} (o : FindOptions RN CM R)
    (ignore : Bool) : FindOptions RN CM R :=
  { o with ignore_creeps := some ignore }

/-- Builder setter `FindOptions::ignore_destructible_structures`. -/
def FindOptions.set_ignore_destructible_structures {RN CM R : Type}
    (o : FindOptions RN CM R) (ignore : Bool) : FindOptions RN CM R :=
  { o with ignore_destructible_structures := some ignore }

/-- Builder setter `FindOptions::cost_callback`: rebuilds the options with a
new callback (possibly of a different result type `R2`) while moving every
other field across unchanged. -/
def FindOptions.with_cost_callback {RN CM R R2 : Type} (o : FindOptions RN CM R)
    (cost_callback : RN → CM → R2) : FindOptions RN CM R2 :=
  { ignore_creeps := o.ignore_creeps
    ignore_destructible_structures := o.ignore_destructible_structures
    cost_callback := cost_callback
    max_ops := o.max_ops
    heuristic_weight := o.heuristic_weight
    serialize := o.serialize
    max_rooms := o.max_rooms
    range := o.range
    plain_cost := o.plain_cost
    swamp_cost := o.swamp_cost }

/-- Builder setter `FindOptions::max_ops`. -/
def FindOptions.set_max_ops {RN CM R : Type} (o : FindOptions RN CM R)
    (ops : Nat) : FindOptions RN CM R :=
  { o with max_ops := some ops }

/-- Builder setter `FindOptions::heuristic_weight`. -/
def FindOptions.set_heuristic_weight {RN CM R : Type} (o : FindOptions RN CM R)
    (weight : Float) : FindOptions RN CM R :=
  { o with heuristic_weight := some weight }

/-- Builder setter `FindOptions::serialize`. -/
def FindOptions.set_serialize {RN CM R : Type} (o : FindOptions RN CM R)
    (s : Bool) : FindOptions RN CM R :=
  { o with serialize := some s }

/-- Builder setter `FindOptions::max_rooms`. -/
def FindOptions.set_max_rooms {RN CM R : Type} (o : FindOptions RN CM R)
    (rooms : Nat) : FindOptions RN CM R :=
  { o with max_rooms := some rooms }

/-- Builder setter `FindOptions::range`. -/
def FindOptions.set_range {RN CM R : Type} (o : FindOptions RN CM R)
    (k : Nat) : FindOptions RN CM R :=
  { o with range := some k }

/-- Builder setter `FindOptions::plain_cost`. -/
def FindOptions.set_plain_cost {RN CM R : Type} (o : FindOptions RN CM R)
    (cost : Nat) : FindOptions RN CM R :=
  { o with plain_cost := some cost }

/-- Builder setter `FindOptions::swamp_cost`. -/
def FindOptions.set_swamp_cost {RN CM R : Type} (o : FindOptions RN CM R)
    (cost : Nat) : FindOptions RN CM R :=
  { o with swamp_cost := some cost }

/-- The JS-facing closure built inside `FindOptions::as_js_options`: the
composite of `owned_callback` (the user callback followed by `.into()`,
modelled by `toJs`) and `boxed_callback` (parse the incoming `JsString` room
name, `expect`-panicking — modelled as `none` — when it does not parse, then
invoke the lifetime-erased callback).  `parse` stands for the
`JsString::try_into::<RoomName>` conversion. -/
def FindOptions.boxed_callback {RN CM R JV : Type} (parse : String → Option RN)
    (toJs : R → JV) (o : FindOptions RN CM R) : String → CM → Option JV :=
  fun room cost_matrix =>
    match parse room with
    | some rn => some (toJs (o.cost_callback rn cost_matrix))
    | none => none

/-- Embedding of `FindOptions::as_js_options`: build the bridged cost
callback closure, create a fresh `JsFindOptions` object, unconditionally
install the cost callback, assign each of the nine optional properties
exactly when the corresponding field is `Some`, and hand the object to the
continuation `k`. -/
def FindOptions.as_js_options {RN CM R JV CR : Type} (parse : String → Option RN)
    (toJs : R → JV) (o : FindOptions RN CM R) (k : JsFindOptions CM JV → CR) : CR :=
  let closure := FindOptions.boxed_callback parse toJs o
  let js_options : JsFindOptions CM JV := JsFindOptions.new
  let js_options := js_options.set_cost_callback closure
  let js_options := match o.ignore_creeps with
    | some v => js_options.set_ignore_creeps v
    | none => js_options
  let js_options := match o.ignore_destructible_structures with
    | some v => js_options.set_ignore_destructible_structures v
    | none => js_options
  let js_options := match o.max_ops with
    | some v => js_options.set_max_ops v
    | none => js_options
  let js_options := match o.heuristic_weight with
    | some v => js_options.set_heuristic_weight v
    | none => js_options
  let js_options := match o.serialize with
    | some v => js_options.set_serialize v
    | none => js_options
  let js_options := match o.max_rooms with
    | some v => js_options.set_max_rooms v
    | none => js_options
  let js_options := match o.range with
    | some v => js_options.set_range v
    | none => js_options
  let js_options := match o.plain_cost with
    | some v => js_options.set_plain_cost v
    | none => js_options
  let js_options := match o.swamp_cost with
    | some v => js_options.set_swamp_cost v
    | none => js_options
  k js_options

/-- Concrete parser used to instantiate the witness for the cost-callback
bridging theorem: accepts exactly the room-name string held in
`witness_room_string`. -/
def witness_room_string : String := "E5N5"

/-- Concrete parse function for the bridging witness. -/
def witness_parse (s : String) : Option Nat :=
  if s = witness_room_string then some 3 else none

/-- Concrete `FindOptions` value for the bridging witness. -/
def witness_options : FindOptions Nat Nat Nat :=
  { ignore_creeps := none
    ignore_destructible_structures := none
    cost_callback := fun r m => r * 10 + m
    max_ops := none
    heuristic_weight := none
    serialize := none
    max_rooms := none
    range := none
    plain_cost := none
    swamp_cost := none }

/-- C4: `ReturnCode::as_result` returns `Ok(())` when and only when the code
is `ReturnCode::Ok`; for every other variant it returns `Err` carrying that
same variant unchanged. -/
theorem as_result_ok_iff (c : ReturnCode) :
    (c.as_result = Except.ok () ↔ c = ReturnCode.Ok) ∧
    (c ≠ ReturnCode.Ok → c.as_result = Except.error c) := by
  cases c <;> simp [ReturnCode.as_result]

/-- Witness for C4 at the concrete code `NotOwner`. -/
theorem as_result_ok_iff_witness :
    ReturnCode.as_result ReturnCode.NotOwner = Except.error ReturnCode.NotOwner :=
  (as_result_ok_iff ReturnCode.NotOwner).2 (by decide)

/-- C6: `find::Exit::try_from` succeeds exactly on 1, 3, 5, 7 and 10,
returning `Exit(v)`, and fails with `Err(v)` otherwise; `find_code` round
trips the stored value, and the five constructors carry codes 1, 3, 5, 7
and 10. -/
theorem exit_try_from_round_trip (v : Int) :
    ((v = 1 ∨ v = 3 ∨ v = 5 ∨ v = 7 ∨ v = 10) → Exit.try_from v = Except.ok ⟨v⟩) ∧
    (¬(v = 1 ∨ v = 3 ∨ v = 5 ∨ v = 7 ∨ v = 10) → Exit.try_from v = Except.error v) ∧
    (∀ e : Exit, Exit.try_from v = Except.ok e → Exit.find_code e = v) ∧
    Exit.find_code Exit.top = 1 ∧ Exit.find_code Exit.right = 3 ∧
    Exit.find_code Exit.bottom = 5 ∧ Exit.find_code Exit.left = 7 ∧
    Exit.find_code Exit.all = 10 := by
  refine ⟨fun h => ?_, fun h => ?_, fun e he => ?_, rfl, rfl, rfl, rfl, rfl⟩
  · simp [Exit.try_from, h]
  · simp [Exit.try_from, h]
  · unfold Exit.try_from at he
    split at he
    · cases he
      rfl
    · simp at he

/-- Witness for C6 at the concrete code 10 (the `all` exit constant). -/
theorem exit_try_from_round_trip_witness :
    Exit.try_from 10 = Except.ok ⟨10⟩ :=
  (exit_try_from_round_trip 10).1 (by decide)

/-- C7: `FindObject::find_code` mirrors the host numeric codes exactly,
from `Creeps = 101` through `Tombstones = 118`. -/
theorem find_object_codes :
    FindObject.find_code .Creeps = 101 ∧
    FindObject.find_code .MyCreeps = 102 ∧
    FindObject.find_code .HostileCreeps = 103 ∧
    FindObject.find_code .SourcesActive = 104 ∧
    FindObject.find_code .Sources = 105 ∧
    FindObject.find_code .DroppedResources = 106 ∧
    FindObject.find_code .Structures = 107 ∧
    FindObject.find_code .MyStructures = 108 ∧
    FindObject.find_code .HostileStructures = 109 ∧
    FindObject.find_code .Flags = 110 ∧
    FindObject.find_code .ConstructionSites = 111 ∧
    FindObject.find_code .MySpawns = 112 ∧
    FindObject.find_code .HostileSpawns = 113 ∧
    FindObject.find_code .MyConstructionSites = 114 ∧
    FindObject.find_code .HostileConstructionSites = 115 ∧
    FindObject.find_code .Minerals = 116 ∧
    FindObject.find_code .Nukes = 117 ∧
    FindObject.find_code .Tombstones = 118 := by
  decide

/-- C8: negation of `Direction` is an involution with no fixed point. -/
theorem direction_neg_involution_no_fixed_point (d : Direction) :
    Direction.neg (Direction.neg d) = d ∧ Direction.neg d ≠ d := by
  cases d <;> decide

/-- C10: converting a host value already known to hold an `i32` to
`ReturnCode` is total: a declared discriminant yields its variant, any other
integer yields `Other`; whereas the plain `TryFrom<i32>` yields `Ok` on a
declared discriminant and `Err` with the original integer otherwise. -/
theorem return_code_lossy_conversion (x : Int) :
    (∀ c : ReturnCode, ReturnCode.toI32 c = x →
      ReturnCode.try_from_value x = c ∧ ReturnCode.try_from_i32 x = Except.ok c) ∧
    ((∀ c : ReturnCode, ReturnCode.toI32 c ≠ x) →
      ReturnCode.try_from_value x = ReturnCode.Other ∧
      ReturnCode.try_from_i32 x = Except.error x) := by
  constructor
  · intro c hc
    subst hc
    cases c <;> exact ⟨by decide, by decide⟩
  · intro h
    have hnone : ReturnCode.from_i32 x = none := by
      unfold ReturnCode.from_i32
      rw [if_neg (fun hh => h .Ok (by rw [hh]; rfl)),
          if_neg (fun hh => h .NotOwner (by rw [hh]; rfl)),
          if_neg (fun hh => h .NoPath (by rw [hh]; rfl)),
          if_neg (fun hh => h .NameExists (by rw [hh]; rfl)),
          if_neg (fun hh => h .Busy (by rw [hh]; rfl)),
          if_neg (fun hh => h .NotFound (by rw [hh]; rfl)),
          if_neg (fun hh => h .NotEnough (by rw [hh]; rfl)),
          if_neg (fun hh => h .InvalidTarget (by rw [hh]; rfl)),
          if_neg (fun hh => h .Full (by rw [hh]; rfl)),
          if_neg (fun hh => h .NotInRange (by rw [hh]; rfl)),
          if_neg (fun hh => h .InvalidArgs (by rw [hh]; rfl)),
          if_neg (fun hh => h .Tired (by rw [hh]; rfl)),
          if_neg (fun hh => h .NoBodypart (by rw [hh]; rfl)),
          if_neg (fun hh => h .RclNotEnough (by rw [hh]; rfl)),
          if_neg (fun hh => h .GclNotEnough (by rw [hh]; rfl)),
          if_neg (fun hh => h .Other (by rw [hh]; rfl))]
    constructor
    · unfold ReturnCode.try_from_value
      rw [hnone]
      rfl
    · unfold ReturnCode.try_from_i32
      rw [hnone]

/-- Witness for C10 at the concrete integer -13, which is not a declared
discriminant of `ReturnCode`. -/
theorem return_code_lossy_conversion_witness :
    ReturnCode.try_from_value (-13) = ReturnCode.Other ∧
    ReturnCode.try_from_i32 (-13) = Except.error (-13) :=
  (return_code_lossy_conversion (-13)).2 (by decide)

/-- C9: `Room::look_for_at` and `Room::look_for_at_xy` yield the empty
vector when the host `lookForAt` call returns no array, and the converted
array otherwise, so a caller always receives a (possibly empty) list of the
requested item type. -/
theorem look_for_at_none_empty {β It : Type} (conv : β → It) :
    Room.look_for_at conv none = [] ∧
    Room.look_for_at_xy conv none = [] ∧
    (∀ arr : List β, Room.look_for_at conv (some arr) = arr.map conv) ∧
    (∀ arr : List β, Room.look_for_at_xy conv (some arr) = arr.map conv) :=
  ⟨rfl, rfl, fun _ => rfl, fun _ => rfl⟩

/-- Counterexample to C3: the public operation `Part::cost` does not
delegate to the host runtime — its host-parameterised lifting gives the
same result under every host oracle. -/
theorem part_cost_is_local_counterexample : ¬ DelegatesToHost part_cost_op :=
  fun ⟨_, _, hne⟩ => hne rfl

/-- C3 amended: host accessor operations such as `Room::find` do delegate
to the external host runtime, but the crate also exposes public operations
(`Part::cost`, `rampart_hits_max`) that compute their results by purely
local constant tables, independent of any host call. -/
theorem delegation_amended :
    DelegatesToHost room_find_op ∧
    ¬ DelegatesToHost part_cost_op ∧
    ¬ DelegatesToHost rampart_hits_max_op ∧
    (∀ h : Host Nat, part_cost_op h Screeps.Part.Claim = 600) ∧
    (∀ h : Host Nat, rampart_hits_max_op h 3 = RAMPART_HITS_MAX_RCL3) := by
  refine ⟨⟨⟨fun _ => []⟩, ⟨fun _ => [0]⟩, fun heq => ?_⟩,
    fun ⟨_, _, hne⟩ => hne rfl, fun ⟨_, _, hne⟩ => hne rfl,
    fun _ => rfl, fun _ => rfl⟩
  have h0 := congrFun heq 0
  simp [room_find_op, Room.find] at h0

/-- C1: `as_js_options` builds a `JsFindOptions` object on which the cost
callback is always installed (as the bridged closure), and each of the nine
optional JS properties equals the corresponding stored field — assigned
exactly when that field is `Some`, left unset (`none`) when it is `None`. -/
theorem as_js_options_sets_fields_exactly {RN CM R JV : Type}
    (parse : String → Option RN) (toJs : R → JV) (o : FindOptions RN CM R) :
    (FindOptions.as_js_options parse toJs o id).cost_callback
        = some (FindOptions.boxed_callback parse toJs o) ∧
    (FindOptions.as_js_options parse toJs o id).ignore_creeps = o.ignore_creeps ∧
    (FindOptions.as_js_options parse toJs o id).ignore_destructible_structures
        = o.ignore_destructible_structures ∧
    (FindOptions.as_js_options parse toJs o id).max_ops = o.max_ops ∧
    (FindOptions.as_js_options parse toJs o id).heuristic_weight = o.heuristic_weight ∧
    (FindOptions.as_js_options parse toJs o id).serialize = o.serialize ∧
    (FindOptions.as_js_options parse toJs o id).max_rooms = o.max_rooms ∧
    (FindOptions.as_js_options parse toJs o id).range = o.range ∧
    (FindOptions.as_js_options parse toJs o id).plain_cost = o.plain_cost ∧
    (FindOptions.as_js_options parse toJs o id).swamp_cost = o.swamp_cost := by
  rcases o with ⟨ic, ids, cb, mo, hw, sz, mr, rg, pc, sc⟩
  cases ic <;> cases ids <;> cases mo <;> cases hw <;> cases sz <;>
    cases mr <;> cases rg <;> cases pc <;> cases sc <;>
    exact ⟨rfl, rfl, rfl, rfl, rfl, rfl, rfl, rfl, rfl, rfl⟩

/-- C2: the JS-facing closure that `as_js_options` installs on the options
object is the bridged callback, and on every room-name string that parses
to a valid room name it returns exactly the user callback's answer
converted to a `JsValue`: the type- and lifetime-erasure bridging does not
alter the callback's input-output behaviour. -/
theorem cost_callback_bridge_preserves_behaviour {RN CM R JV : Type}
    (parse : String → Option RN) (toJs : R → JV) (o : FindOptions RN CM R)
    (s : String) (r : RN) (m : CM) (h : parse s = some r) :
    (FindOptions.as_js_options parse toJs o id).cost_callback
        = some (FindOptions.boxed_callback parse toJs o) ∧
    FindOptions.boxed_callback parse toJs o s m = some (toJs (o.cost_callback r m)) := by
  constructor
  · rcases o with ⟨ic, ids, cb, mo, hw, sz, mr, rg, pc, sc⟩
    cases ic <;> cases ids <;> cases mo <;> cases hw <;> cases sz <;>
      cases mr <;> cases rg <;> cases pc <;> cases sc <;> rfl
  · simp [FindOptions.boxed_callback, h]

/-- Witness for C2 at a concrete parser, options value, room string and
cost matrix: the bridged closure returns the user callback's value. -/
theorem cost_callback_bridge_witness :
    (FindOptions.as_js_options witness_parse id witness_options id).cost_callback
        = some (FindOptions.boxed_callback witness_parse id witness_options) ∧
    FindOptions.boxed_callback witness_parse id witness_options witness_room_string 4
        = some 34 := by
  have h := cost_callback_bridge_preserves_behaviour witness_parse id witness_options
    witness_room_string 3 4 (by decide)
  exact ⟨h.1, h.2⟩

/-- C5: each `FindOptions` builder setter changes only its own field (to
`Some` of its argument) and leaves every other field, the cost callback
included, unchanged; `cost_callback` replaces only the callback and
preserves the other nine fields. -/
theorem find_options_builder_frame {RN CM R R2 : Type} (o : FindOptions RN CM R)
    (b1 b2 b3 : Bool) (n1 n2 n3 n4 n5 : Nat) (w : Float) (f2 : RN → CM → R2) :
    (o.set_ignore_creeps b1).ignore_creeps = some b1 ∧
    (o.set_ignore_creeps b1).ignore_destructible_structures = o.ignore_destructible_structures ∧
    (o.set_ignore_creeps b1).cost_callback = o.cost_callback ∧
    (o.set_ignore_creeps b1).max_ops = o.max_ops ∧
    (o.set_ignore_creeps b1).heuristic_weight = o.heuristic_weight ∧
    (o.set_ignore_creeps b1).serialize = o.serialize ∧
    (o.set_ignore_creeps b1).max_rooms = o.max_rooms ∧
    (o.set_ignore_creeps b1).range = o.range ∧
    (o.set_ignore_creeps b1).plain_cost = o.plain_cost ∧
    (o.set_ignore_creeps b1).swamp_cost = o.swamp_cost ∧
    (o.set_ignore_destructible_structures b2).ignore_destructible_structures = some b2 ∧
    (o.set_ignore_destructible_structures b2).ignore_creeps = o.ignore_creeps ∧
    (o.set_ignore_destructible_structures b2).cost_callback = o.cost_callback ∧
    (o.set_ignore_destructible_structures b2).max_ops = o.max_ops ∧
    (o.set_ignore_destructible_structures b2).heuristic_weight = o.heuristic_weight ∧
    (o.set_ignore_destructible_structures b2).serialize = o.serialize ∧
    (o.set_ignore_destructible_structures b2).max_rooms = o.max_rooms ∧
    (o.set_ignore_destructible_structures b2).range = o.range ∧
    (o.set_ignore_destructible_structures b2).plain_cost = o.plain_cost ∧
    (o.set_ignore_destructible_structures b2).swamp_cost = o.swamp_cost ∧
    (o.set_max_ops n1).max_ops = some n1 ∧
    (o.set_max_ops n1).ignore_creeps = o.ignore_creeps ∧
    (o.set_max_ops n1).ignore_destructible_structures = o.ignore_destructible_structures ∧
    (o.set_max_ops n1).cost_callback = o.cost_callback ∧
    (o.set_max_ops n1).heuristic_weight = o.heuristic_weight ∧
    (o.set_max_ops n1).serialize = o.serialize ∧
    (o.set_max_ops n1).max_rooms = o.max_rooms ∧
    (o.set_max_ops n1).range = o.range ∧
    (o.set_max_ops n1).plain_cost = o.plain_cost ∧
    (o.set_max_ops n1).swamp_cost = o.swamp_cost ∧
    (o.set_heuristic_weight w).heuristic_weight = some w ∧
    (o.set_heuristic_weight w).ignore_creeps = o.ignore_creeps ∧
    (o.set_heuristic_weight w).ignore_destructible_structures = o.ignore_destructible_structures ∧
    (o.set_heuristic_weight w).cost_callback = o.cost_callback ∧
    (o.set_heuristic_weight w).max_ops = o.max_ops ∧
    (o.set_heuristic_weight w).serialize = o.serialize ∧
    (o.set_heuristic_weight w).max_rooms = o.max_rooms ∧
    (o.set_heuristic_weight w).range = o.range ∧
    (o.set_heuristic_weight w).plain_cost = o.plain_cost ∧
    (o.set_heuristic_weight w).swamp_cost = o.swamp_cost ∧
    (o.set_serialize b3).serialize = some b3 ∧
    (o.set_serialize b3).ignore_creeps = o.ignore_creeps ∧
    (o.set_serialize b3).ignore_destructible_structures = o.ignore_destructible_structures ∧
    (o.set_serialize b3).cost_callback = o.cost_callback ∧
    (o.set_serialize b3).max_ops = o.max_ops ∧
    (o.set_serialize b3).heuristic_weight = o.heuristic_weight ∧
    (o.set_serialize b3).max_rooms = o.max_rooms ∧
    (o.set_serialize b3).range = o.range ∧
    (o.set_serialize b3).plain_cost = o.plain_cost ∧
    (o.set_serialize b3).swamp_cost = o.swamp_cost ∧
    (o.set_max_rooms n2).max_rooms = some n2 ∧
    (o.set_max_rooms n2).ignore_creeps = o.ignore_creeps ∧
    (o.set_max_rooms n2).ignore_destructible_structures = o.ignore_destructible_structures ∧
    (o.set_max_rooms n2).cost_callback = o.cost_callback ∧
    (o.set_max_rooms n2).max_ops = o.max_ops ∧
    (o.set_max_rooms n2).heuristic_weight = o.heuristic_weight ∧
    (o.set_max_rooms n2).serialize = o.serialize ∧
    (o.set_max_rooms n2).range = o.range ∧
    (o.set_max_rooms n2).plain_cost = o.plain_cost ∧
    (o.set_max_rooms n2).swamp_cost = o.swamp_cost ∧
    (o.set_range n3).range = some n3 ∧
    (o.set_range n3).ignore_creeps = o.ignore_creeps ∧
    (o.set_range n3).ignore_destructible_structures = o.ignore_destructible_structures ∧
    (o.set_range n3).cost_callback = o.cost_callback ∧
    (o.set_range n3).max_ops = o.max_ops ∧
    (o.set_range n3).heuristic_weight = o.heuristic_weight ∧
    (o.set_range n3).serialize = o.serialize ∧
    (o.set_range n3).max_rooms = o.max_rooms ∧
    (o.set_range n3).plain_cost = o.plain_cost ∧
    (o.set_range n3).swamp_cost = o.swamp_cost ∧
    (o.set_plain_cost n4).plain_cost = some n4 ∧
    (o.set_plain_cost n4).ignore_creeps = o.ignore_creeps ∧
    (o.set_plain_cost n4).ignore_destructible_structures = o.ignore_destructible_structures ∧
    (o.set_plain_cost n4).cost_callback = o.cost_callback ∧
    (o.set_plain_cost n4).max_ops = o.max_ops ∧
    (o.set_plain_cost n4).heuristic_weight = o.heuristic_weight ∧
    (o.set_plain_cost n4).serialize = o.serialize ∧
    (o.set_plain_cost n4).max_rooms = o.max_rooms ∧
    (o.set_plain_cost n4).range = o.range ∧
    (o.set_plain_cost n4).swamp_cost = o.swamp_cost ∧
    (o.set_swamp_cost n5).swamp_cost = some n5 ∧
    (o.set_swamp_cost n5).ignore_creeps = o.ignore_creeps ∧
    (o.set_swamp_cost n5).ignore_destructible_structures = o.ignore_destructible_structures ∧
    (o.set_swamp_cost n5).cost_callback = o.cost_callback ∧
    (o.set_swamp_cost n5).max_ops = o.max_ops ∧
    (o.set_swamp_cost n5).heuristic_weight = o.heuristic_weight ∧
    (o.set_swamp_cost n5).serialize = o.serialize ∧
    (o.set_swamp_cost n5).max_rooms = o.max_rooms ∧
    (o.set_swamp_cost n5).range = o.range ∧
    (o.set_swamp_cost n5).plain_cost = o.plain_cost ∧
    (o.with_cost_callback f2).cost_callback = f2 ∧
    (o.with_cost_callback f2).ignore_creeps = o.ignore_creeps ∧
    (o.with_cost_callback f2).ignore_destructible_structures = o.ignore_destructible_structures ∧
    (o.with_cost_callback f2).max_ops = o.max_ops ∧
    (o.with_cost_callback f2).heuristic_weight = o.heuristic_weight ∧
    (o.with_cost_callback f2).serialize = o.serialize ∧
    (o.with_cost_callback f2).max_rooms = o.max_rooms ∧
    (o.with_cost_callback f2).range = o.range ∧
    (o.with_cost_callback f2).plain_cost = o.plain_cost ∧
    (o.with_cost_callback f2).swamp_cost = o.swamp_cost :=
  ⟨rfl, rfl, rfl, rfl, rfl, rfl, rfl, rfl, rfl, rfl, rfl, rfl, rfl, rfl, rfl, rfl, rfl, rfl, rfl, rfl, rfl, rfl, rfl, rfl, rfl, rfl, rfl, rfl, rfl, rfl, rfl, rfl, rfl, rfl, rfl, rfl, rfl, rfl, rfl, rfl, rfl, rfl, rfl, rfl, rfl, rfl, rfl, rfl, rfl, rfl, rfl, rfl, rfl, rfl, rfl, rfl, rfl, rfl, rfl, rfl, rfl, rfl, rfl, rfl, rfl, rfl, rfl, rfl, rfl, rfl, rfl, rfl, rfl, rfl, rfl, rfl, rfl, rfl, rfl, rfl, rfl, rfl, rfl, rfl, rfl, rfl, rfl, rfl, rfl, rfl, rfl, rfl, rfl, rfl, rfl, rfl, rfl, rfl, rfl, rfl⟩

/-- Witness for C8 at the concrete direction `Top`. -/
theorem direction_neg_involution_witness :
    Direction.neg (Direction.neg Direction.Top) = Direction.Top ∧
    Direction.neg Direction.Top ≠ Direction.Top :=
  direction_neg_involution_no_fixed_point Direction.Top
